import Mathlib

/-!
Shallow embedding of the Geo_Tour video pipeline (src/pipeline.py,
src/script_generator.py) and verification of its specification claims.

Modelling conventions:
* Python exceptions are `Except` values carrying the exception message
  (for the script generator, an error class plus message).
* The six stage transforms, the metadata writer and the progress callback
  are external collaborators of the orchestrator; they are supplied as an
  `Env` of functions that either return a value or raise.
* The orchestrator is instrumented with a `trace` of observable actions
  (progress-callback invocations, stage-transform invocations, run-state
  recordings, metadata-save attempts) appended in program order, so that
  temporal claims can be stated over the final trace.
* Machine-level details that no claim touches (actual file IO, wall-clock
  time) are inputs: the timestamp string is a parameter of `run`.
-/

namespace GeoTour

/-! ## Data model (spec section 3, pipeline.py) -/

/-- Output of the script stage: a dict with `title` and `script`
(pipeline.py consumes these two fields only). -/
structure ScriptData where
  title : String
  script : String
deriving Repr, DecidableEq

/-- One scene of a scene plan (collaborator interface, spec section 3). -/
structure Scene where
  scene_number : Nat
  narration : String
  visual_description : String
  duration : Nat
deriving Repr, DecidableEq

/-- A scene plan: pipeline.py reads only its `scenes` list. -/
structure ScenePlan where
  scenes : List Scene
deriving Repr, DecidableEq

/-- The value recorded in `current_project["steps"]` for one stage. -/
inductive StageVal where
  | script (d : ScriptData)
  | scenes (p : ScenePlan)
  | storyboard (imgs : List String)
  | clips (paths : List String)
  | audio (path : String)
  | finalVideo (path : String)
deriving Repr, DecidableEq

/-- `self.current_project`: prompt, timestamp and the append-only map of
completed stage outputs (insertion-ordered association list, as a Python
dict preserves insertion order). -/
structure Project where
  prompt : String
  timestamp : String
  steps : List (String × StageVal)
deriving Repr, DecidableEq

/-! ## Script generator (script_generator.py, lines 45-70)

`ScriptGenerator.generate` performs an API call, strips and JSON-parses the
response, and validates the presence of the `title` and `script` keys. The
upstream outcome is the model's input:
* `raiseOther m`: the API call itself raised an exception with message `m`
  (caught by the final `except Exception` handler);
* `jsonBad m`: the response text failed JSON parsing, `json.loads` raised a
  `JSONDecodeError` with message `m`;
* `jsonObj fields`: the response parsed to a JSON object with the given
  fields (values flattened to strings; only key presence and value
  emptiness matter to the claims). -/

/-- Python exception classes relevant to the script generator. In the
spec's taxonomy `ValueError` plays ContentError and `RuntimeError` plays
the generic provider-side failure. -/
inductive PyErr where
  | valueError (msg : String)
  | runtimeError (msg : String)
deriving Repr, DecidableEq

/-- Outcome of the upstream API call plus JSON parse, the input to the
post-response logic of `generate`. -/
inductive Upstream where
  | raiseOther (msg : String)
  | jsonBad (msg : String)
  | jsonObj (fields : List (String × String))
deriving Repr, DecidableEq

/-- script_generator.py lines 45-70. Control flow of the try/except:
a `JSONDecodeError` is converted to `ValueError("Failed to parse script
response: ...")`; any other exception raised inside the `try` — including
the `ValueError("Invalid script structure returned")` raised by the
structure validation at line 62 — is caught by the trailing
`except Exception` and re-wrapped as
`RuntimeError("Script generation failed: ...")`. -/
def ScriptGenerator.generate (u : Upstream) : Except PyErr (List (String × String)) :=
  match u with
  | .raiseOther m => .error (.runtimeError ("Script generation failed: " ++ m))
  | .jsonBad m => .error (.valueError ("Failed to parse script response: " ++ m))
  | .jsonObj fields =>
      if (fields.lookup "title").isNone || (fields.lookup "script").isNone then
        .error (.runtimeError ("Script generation failed: " ++ "Invalid script structure returned"))
      else
        .ok fields

/-! ## Pipeline orchestrator (pipeline.py, VideoPipeline.run, lines 59-191)

The orchestrator is instrumented: every observable interaction is appended
to a trace in the order the Python program performs it. -/

/-- One observable action of a run, in program order. -/
inductive Action where
  /-- the progress callback was invoked with `(step, total, status, detail)` -/
  | progress (stepIdx total : Nat) (status detail : String)
  /-- a stage transform (other than the assembler) was invoked -/
  | invoke (stage : String)
  /-- a stage output was recorded into `current_project["steps"]` -/
  | record (key : String) (v : StageVal)
  /-- the assembler was invoked with this output path -/
  | invokeAssemble (outputPath : String)
  /-- `_save_metadata` attempted to write this project snapshot -/
  | metaSave (p : Project)
deriving Repr, DecidableEq

/-- The stage entries recorded so far, read off the trace. -/
def stepsOf (tr : List Action) : List (String × StageVal) :=
  tr.filterMap fun a =>
    match a with
    | .record k v => some (k, v)
    | _ => none

/-- The run-state snapshot (`self.current_project`) at a trace point. -/
def mkProject (prompt timestamp : String) (tr : List Action) : Project :=
  { prompt := prompt, timestamp := timestamp, steps := stepsOf tr }

/-- The dict returned by `VideoPipeline.run`. Keys absent from the Python
dict on a branch are `none`. -/
structure RunResult where
  success : Bool
  video_path : Option String
  script : Option ScriptData
  scenes : Option ScenePlan
  project_data : Project
  error : Option String
deriving Repr, DecidableEq

/-- A run's result together with its instrumented action trace. -/
structure RunOutcome where
  result : RunResult
  trace : List Action
deriving Repr, DecidableEq

/-- The collaborators of one `VideoPipeline` instance: the six stage
transforms, the metadata writer, the optional progress callback, and the
configuration the orchestrator reads (`use_storyboard`, `OUTPUT_DIR`).
Each fallible call returns `Except` with the exception message. -/
structure Env where
  use_storyboard : Bool
  outputDir : String
  scriptGen : String → Except String ScriptData
  scenePlanner : ScriptData → Option Nat → Option Nat → Except String ScenePlan
  storyboardGen : ScenePlan → Except String (List String)
  videoGen : ScenePlan → Option (List String) → Except String (List String)
  audioGen : ScriptData → Except String String
  assembler : List String → String → String → Except String String
  saveMetadata : Project → Except String Unit
  progressCallback : Option (Nat → Nat → String → String → Except String Unit)

/-- `if progress_callback: progress_callback(i, t, status, detail)`:
the result of the guarded callback invocation (`.ok ()` when no callback
is installed); its exception, if any, propagates to the orchestrator's
`except` block. -/
def cbRes (env : Env) (i t : Nat) (status detail : String) : Except String Unit :=
  match env.progressCallback with
  | none => .ok ()
  | some f => f i t status detail

/-- The trace extension of the same guarded callback invocation: the
notification is an observed action exactly when a callback is installed
(whether or not the call then raises). Traces are accumulated in reverse
(most recent action first) and put into chronological order at the exits
of `run`. -/
def cbTrace (env : Env) (i t : Nat) (status detail : String) (tr : List Action) :
    List Action :=
  match env.progressCallback with
  | none => tr
  | some _ => .progress i t status detail :: tr

/-- Python `x or d` on an optional integer: `None` and `0` are falsy. -/
def pyOrNat (x : Option Nat) (d : Nat) : Nat :=
  match x with
  | none => d
  | some n => if n = 0 then d else n

/-- Python `not s` on an optional string: `None` and `""` are falsy. -/
def pyFalsyStr (x : Option String) : Bool :=
  match x with
  | none => true
  | some s => s = ""

/-- Characters after the last slash of a character list. -/
def lastComponent (cs : List Char) : List Char :=
  cs.foldl (fun acc c => if c = '/' then [] else acc ++ [c]) []

/-- `Path(p).name`: the last `/`-separated component (POSIX model; a
trailing slash yields the empty name). -/
def pyPathName (s : String) : String :=
  String.mk (lastComponent s.data)

/-- pipeline.py lines 152-153: keep only alphanumeric characters, spaces,
hyphens and underscores; replace each space by an underscore (the
single-character `str.replace` acts characterwise); truncate to 50
characters. `Char.isAlphanum` models the ASCII fragment of Python's
`str.isalnum`. -/
def sanitizeTitle (title : String) : String :=
  String.mk ((((title.data.filter
    (fun c => c.isAlphanum || c = ' ' || c = '-' || c = '_'))).map
    (fun c => if c = ' ' then '_' else c)).take 50)

/-- pipeline.py line 154: `f"{safe_title}_{timestamp}.mp4"`. -/
def derivedFilename (title timestamp : String) : String :=
  sanitizeTitle title ++ "_" ++ timestamp ++ ".mp4"

/-- The failure `RunResult` built by the `except` block (lines 176-182):
`success=False`, `error=str(e)`, `project_data` as accumulated. The
argument is the reverse-accumulated trace, put into chronological order
here. -/
def failOutcome (user_prompt timestamp e : String) (acc : List Action) : RunOutcome :=
  { result :=
      { success := false, video_path := none, script := none, scenes := none,
        project_data := mkProject user_prompt timestamp acc.reverse, error := some e },
    trace := acc.reverse }

/-- Steps 4-6 of `VideoPipeline.run` (pipeline.py lines 125-182): video
clips, voiceover, final assembly, then the metadata save and the success
result; entered after the storyboard step with the `storyboard_images`
value (`none` when storyboard generation is disabled) and the trace so
far. -/
def stagesFrom4 (env : Env) (user_prompt timestamp : String)
    (output_filename : Option String) (script_data : ScriptData)
    (scene_plan : ScenePlan) (storyboard_images : Option (List String))
    (tr12 : List Action) : RunOutcome :=
  let tr13 := cbTrace env 4 6 "🎥 Generating video clips..."
      "Creating animated video clips for each scene" tr12
  match cbRes env 4 6 "🎥 Generating video clips..."
      "Creating animated video clips for each scene" with
  | .error e => failOutcome user_prompt timestamp e tr13
  | .ok _ =>
  let tr14 := .invoke "video_generator" :: tr13
  match env.videoGen scene_plan storyboard_images with
  | .error e => failOutcome user_prompt timestamp e tr14
  | .ok clip_paths =>
  let tr15 := .record "clips" (.clips clip_paths) :: tr14
  let tr16 := cbTrace env 4 6 "✅ Video clips generated"
      (toString clip_paths.length ++ " video clips created") tr15
  match cbRes env 4 6 "✅ Video clips generated"
      (toString clip_paths.length ++ " video clips created") with
  | .error e => failOutcome user_prompt timestamp e tr16
  | .ok _ =>
  let tr17 := cbTrace env 5 6 "🎙️ Generating voiceover..."
      "Creating audio narration from script" tr16
  match cbRes env 5 6 "🎙️ Generating voiceover..."
      "Creating audio narration from script" with
  | .error e => failOutcome user_prompt timestamp e tr17
  | .ok _ =>
  let tr18 := .invoke "audio_generator" :: tr17
  match env.audioGen script_data with
  | .error e => failOutcome user_prompt timestamp e tr18
  | .ok audio_path =>
  let tr19 := .record "audio" (.audio audio_path) :: tr18
  let tr20 := cbTrace env 5 6 "✅ Voiceover generated"
      ("Audio file created: " ++ pyPathName audio_path) tr19
  match cbRes env 5 6 "✅ Voiceover generated"
      ("Audio file created: " ++ pyPathName audio_path) with
  | .error e => failOutcome user_prompt timestamp e tr20
  | .ok _ =>
  let tr21 := cbTrace env 6 6 "🎬 Assembling final video..."
      "Combining video clips with audio" tr20
  match cbRes env 6 6 "🎬 Assembling final video..."
      "Combining video clips with audio" with
  | .error e => failOutcome user_prompt timestamp e tr21
  | .ok _ =>
  let filename := if pyFalsyStr output_filename then
      derivedFilename script_data.title timestamp
    else output_filename.getD ""
  let output_path := env.outputDir ++ "/" ++ filename
  let tr22 := .invokeAssemble output_path :: tr21
  match env.assembler clip_paths audio_path output_path with
  | .error e => failOutcome user_prompt timestamp e tr22
  | .ok final_video =>
  let tr23 := .record "final_video" (.finalVideo final_video) :: tr22
  let tr24 := cbTrace env 6 6 "✅ Video complete!"
      ("Final video saved: " ++ filename) tr23
  match cbRes env 6 6 "✅ Video complete!" ("Final video saved: " ++ filename) with
  | .error e => failOutcome user_prompt timestamp e tr24
  | .ok _ =>
  let proj := mkProject user_prompt timestamp tr24.reverse
  let tr25 := .metaSave proj :: tr24
  match env.saveMetadata proj with
  | .error e => failOutcome user_prompt timestamp e tr25
  | .ok _ =>
    { result :=
        { success := true, video_path := some final_video,
          script := some script_data, scenes := some scene_plan,
          project_data := mkProject user_prompt timestamp tr25.reverse, error := none },
      trace := tr25.reverse }

/-- `VideoPipeline.run` (pipeline.py lines 59-182): steps 1-3 (script,
scene plan, optional storyboard), continuing into `stagesFrom4`. The
`timestamp` parameter models `datetime.now().strftime("%Y%m%d_%H%M%S")`;
printing via `safe_print` and `_print_summary` cannot raise and is not
modelled. -/
def VideoPipeline.run (env : Env) (user_prompt timestamp : String)
    (output_filename : Option String) (num_scenes scene_duration : Option Nat) :
    RunOutcome :=
  let tr0 := cbTrace env 1 6 "📝 Generating script..." "Creating narrative structure" []
  match cbRes env 1 6 "📝 Generating script..." "Creating narrative structure" with
  | .error e => failOutcome user_prompt timestamp e tr0
  | .ok _ =>
  let tr1 := .invoke "script_generator" :: tr0
  match env.scriptGen user_prompt with
  | .error e => failOutcome user_prompt timestamp e tr1
  | .ok script_data =>
  let tr2 := .record "script" (.script script_data) :: tr1
  let tr3 := cbTrace env 1 6 "✅ Script generated" ("Title: " ++ script_data.title) tr2
  match cbRes env 1 6 "✅ Script generated" ("Title: " ++ script_data.title) with
  | .error e => failOutcome user_prompt timestamp e tr3
  | .ok _ =>
  let tr4 := cbTrace env 2 6 "🎬 Planning scenes..."
      ("Creating " ++ toString (pyOrNat num_scenes 5) ++ " scenes") tr3
  match cbRes env 2 6 "🎬 Planning scenes..."
      ("Creating " ++ toString (pyOrNat num_scenes 5) ++ " scenes") with
  | .error e => failOutcome user_prompt timestamp e tr4
  | .ok _ =>
  let tr5 := .invoke "scene_planner" :: tr4
  match env.scenePlanner script_data num_scenes scene_duration with
  | .error e => failOutcome user_prompt timestamp e tr5
  | .ok scene_plan =>
  let tr6 := .record "scenes" (.scenes scene_plan) :: tr5
  let tr7 := cbTrace env 2 6 "✅ Scenes planned"
      (toString scene_plan.scenes.length ++ " scenes created") tr6
  match cbRes env 2 6 "✅ Scenes planned"
      (toString scene_plan.scenes.length ++ " scenes created") with
  | .error e => failOutcome user_prompt timestamp e tr7
  | .ok _ =>
  match env.use_storyboard with
  | true =>
    let tr8 := cbTrace env 3 6 "🎨 Generating storyboards..."
        "Creating visual storyboards for each scene" tr7
    match cbRes env 3 6 "🎨 Generating storyboards..."
        "Creating visual storyboards for each scene" with
    | .error e => failOutcome user_prompt timestamp e tr8
    | .ok _ =>
    let tr9 := .invoke "storyboard_generator" :: tr8
    match env.storyboardGen scene_plan with
    | .error e => failOutcome user_prompt timestamp e tr9
    | .ok imgs =>
    let tr10 := .record "storyboard" (.storyboard imgs) :: tr9
    let tr11 := cbTrace env 3 6 "✅ Storyboards generated"
        (toString imgs.length ++ " storyboard images created") tr10
    match cbRes env 3 6 "✅ Storyboards generated"
        (toString imgs.length ++ " storyboard images created") with
    | .error e => failOutcome user_prompt timestamp e tr11
    | .ok _ =>
      stagesFrom4 env user_prompt timestamp output_filename script_data
        scene_plan (some imgs) tr11
  | false =>
    let tr8 := cbTrace env 3 6 "⏭️ Storyboard generation skipped"
        "Using text-to-video generation" tr7
    match cbRes env 3 6 "⏭️ Storyboard generation skipped"
        "Using text-to-video generation" with
    | .error e => failOutcome user_prompt timestamp e tr8
    | .ok _ =>
      stagesFrom4 env user_prompt timestamp output_filename script_data
        scene_plan none tr8

/-! ## Derived notions used by the claims -/

/-- The full ordered key list of a complete run's stage map: the storyboard
key is present exactly when storyboard generation is enabled. -/
def fullKeys : Bool → List String
  | true => ["script", "scenes", "storyboard", "clips", "audio", "final_video"]
  | false => ["script", "scenes", "clips", "audio", "final_video"]

/-- Whether a status label marks a "completed" notification: pipeline.py
prefixes every completion status with the check mark and no starting or
skip status with it. -/
def isCompletedMark (status : String) : Bool :=
  match status.data with
  | c :: _ => c = '✅'
  | [] => false

/-- Temporal rank of an action: stage `k`'s "starting" notification and
transform invocation rank `2k`; its run-state recording and "completed"
notification rank `2k+1`; the metadata save ranks last. Program order of
pipeline.py is exactly non-decreasing rank order, strictly increasing on
progress notifications. -/
def rank : Action → Nat
  | .progress i _ status _ => 2 * i + (if isCompletedMark status then 1 else 0)
  | .invoke n =>
      if n = "script_generator" then 2
      else if n = "scene_planner" then 4
      else if n = "storyboard_generator" then 6
      else if n = "video_generator" then 8
      else if n = "audio_generator" then 10
      else 0
  | .record k _ =>
      if k = "script" then 3
      else if k = "scenes" then 5
      else if k = "storyboard" then 7
      else if k = "clips" then 9
      else if k = "audio" then 11
      else if k = "final_video" then 13
      else 0
  | .invokeAssemble _ => 12
  | .metaSave _ => 14

/-- Whether an action is a progress-callback invocation. -/
def isProgressAct : Action → Bool
  | .progress _ _ _ _ => true
  | _ => false

/-- The metadata snapshot carried by a metadata-save action, if any. -/
def metaProjOf : Action → Option Project
  | .metaSave p => some p
  | _ => none

/-- Boolean check that consecutive entries are non-decreasing. -/
def chainLeB : List Nat → Bool
  | [] => true
  | [_] => true
  | a :: b :: rest => Nat.ble a b && chainLeB (b :: rest)

/-- Boolean check that consecutive entries are strictly increasing. -/
def chainLtB : List Nat → Bool
  | [] => true
  | [_] => true
  | a :: b :: rest => Nat.blt a b && chainLtB (b :: rest)

/-- The conjunction of run invariants established by one case analysis
over all collaborator behaviours, as an executable check: shape of
successful results, shape of failing results, contents of every attempted
metadata snapshot, and the temporal ordering of the trace. -/
def runGoodB (useSb : Bool) (o : RunOutcome) : Bool :=
  (!o.result.success ||
    (o.result.video_path.isSome && (o.result.error == none) &&
      (o.result.project_data.steps.map Prod.fst == fullKeys useSb))) &&
  (o.result.success ||
    (o.result.error.isSome &&
      List.isPrefixOf (o.result.project_data.steps.map Prod.fst) (fullKeys useSb))) &&
  ((o.trace.filterMap metaProjOf).all
    (fun pr => pr.steps.map Prod.fst == fullKeys useSb)) &&
  chainLeB (o.trace.map rank) &&
  chainLtB ((o.trace.filter isProgressAct).map rank)

set_option maxHeartbeats 0 in
/-- Master case analysis: every run of the orchestrator, under every
collaborator behaviour, passes the `runGoodB` invariant check. -/
theorem run_facts (env : Env) (p ts : String) (ofn : Option String)
    (ns sdur : Option Nat) :
    runGoodB env.use_storyboard (VideoPipeline.run env p ts ofn ns sdur) = true := by
  cases hcb : env.progressCallback <;> cases husb : env.use_storyboard <;>
  · unfold VideoPipeline.run
    simp only [stagesFrom4, cbRes, cbTrace, hcb, husb]
    repeat' split
    all_goals rfl

/-! ## Bridging lemmas and concrete collaborator environments -/

/-- `chainLeB` decides `List.Chain' (· ≤ ·)`. -/
theorem chainLeB_iff : ∀ l : List Nat, chainLeB l = true ↔ List.Chain' (· ≤ ·) l
  | [] => by simp [chainLeB]
  | [a] => by simp [chainLeB]
  | a :: b :: rest => by
    simp [chainLeB, List.chain'_cons, chainLeB_iff (b :: rest), Nat.ble_eq]

/-- `chainLtB` decides `List.Chain' (· < ·)`. -/
theorem chainLtB_iff : ∀ l : List Nat, chainLtB l = true ↔ List.Chain' (· < ·) l
  | [] => by simp [chainLtB]
  | [a] => by simp [chainLtB]
  | a :: b :: rest => by
    simp [chainLtB, List.chain'_cons, chainLtB_iff (b :: rest), Nat.blt_eq]

/-- The names of the stage transforms invoked during a run (the assembler
is traced separately with its output path). -/
def invokedStages (tr : List Action) : List String :=
  tr.filterMap fun a =>
    match a with
    | .invoke s => some s
    | _ => none

/-- A script output used by the concrete example runs. -/
def sd0 : ScriptData := { title := "How Rainbows Form", script := "Light refracts." }

/-- A one-scene plan used by the concrete example runs. -/
def plan0 : ScenePlan :=
  { scenes := [{ scene_number := 1, narration := "n", visual_description := "v",
                 duration := 6 }] }

/-- Concrete collaborators under which every stage succeeds; the assembler
echoes the output path it is given, and a progress callback is installed
that always returns normally. -/
def envOk : Env :=
  { use_storyboard := true
    outputDir := "output"
    scriptGen := fun _ => .ok sd0
    scenePlanner := fun _ _ _ => .ok plan0
    storyboardGen := fun _ => .ok ["sb1.png"]
    videoGen := fun _ _ => .ok ["clip1.mp4"]
    audioGen := fun _ => .ok "output/audio.mp3"
    assembler := fun _ _ p => .ok p
    saveMetadata := fun _ => .ok ()
    progressCallback := some (fun _ _ _ _ => .ok ()) }

/-- Like `envOk` but the script stage raises. -/
def envScriptFail : Env :=
  { envOk with scriptGen := fun _ => .error "parse fail", progressCallback := none }

/-- Like `envOk` but the metadata write raises and the assembler returns a
fixed final path. -/
def envSaveFail : Env :=
  { envOk with saveMetadata := fun _ => .error "disk full",
               assembler := fun _ _ _ => .ok "output/final.mp4",
               progressCallback := none }

/-- Like `envOk` but the script stage returns empty title and script. -/
def envEmptyTitle : Env :=
  { envOk with scriptGen := fun _ => .ok { title := "", script := "" },
               progressCallback := none }

/-- Like `envOk` but without a callback and with a title containing a
character outside the allowed set. -/
def envTitleBang : Env :=
  { envOk with scriptGen := fun _ => .ok { title := "My Video!", script := "s" },
               progressCallback := none }

/-- Like `envTitleBang` but the assembler returns a fixed final path. -/
def envCustomName : Env :=
  { envTitleBang with assembler := fun _ _ _ => .ok "output/final.mp4" }

/-- Like `envOk` but the script stage raises with an empty message. -/
def envEmptyMsg : Env :=
  { envOk with scriptGen := fun _ => .error "", progressCallback := none }

/-- Like `envOk` but the installed progress callback raises. -/
def envCbBoom : Env :=
  { envOk with progressCallback := some (fun _ _ _ _ => .error "boom") }

/-! ## Claim theorems -/

/-- **C4** (confirmed): every run returning `success == true` has
`video_path` set, no `error` field, and a stage map whose keys are exactly
the six stage keys, with the storyboard key absent exactly when storyboard
generation is disabled. -/
theorem C4_success_shape (env : Env) (p ts : String) (ofn : Option String)
    (ns sdur : Option Nat)
    (h : (VideoPipeline.run env p ts ofn ns sdur).result.success = true) :
    (VideoPipeline.run env p ts ofn ns sdur).result.video_path.isSome = true ∧
    (VideoPipeline.run env p ts ofn ns sdur).result.error = none ∧
    (VideoPipeline.run env p ts ofn ns sdur).result.project_data.steps.map Prod.fst =
      fullKeys env.use_storyboard := by
  have hf := run_facts env p ts ofn ns sdur
  simp only [runGoodB, Bool.and_eq_true, Bool.or_eq_true, Bool.not_eq_true',
    beq_iff_eq] at hf
  rcases hf with ⟨⟨h1, _⟩, _⟩
  rcases h1 with h1 | h1
  · rw [h] at h1
    exact absurd h1 (by simp)
  · exact ⟨h1.1.1, h1.1.2, h1.2⟩

/-- Witness for C4: the all-success example run. -/
theorem C4_success_shape_witness :
    (VideoPipeline.run envOk "p" "ts" none none none).result.video_path.isSome = true ∧
    (VideoPipeline.run envOk "p" "ts" none none none).result.error = none ∧
    (VideoPipeline.run envOk "p" "ts" none none none).result.project_data.steps.map
      Prod.fst = fullKeys envOk.use_storyboard :=
  C4_success_shape envOk "p" "ts" none none none (by decide)

/-- **C9** (confirmed): in every run the trace is ordered: action ranks
are non-decreasing over the whole trace (hence stage N's recording
precedes stage N+1's start, whose rank is strictly larger), and ranks of
progress notifications are strictly increasing (hence step indices passed
to the callback are non-decreasing, and a "completed" notification for
step k precedes any "starting" notification for step k+1). -/
theorem C9_progress_ordering (env : Env) (p ts : String) (ofn : Option String)
    (ns sdur : Option Nat) :
    List.Chain' (· ≤ ·) ((VideoPipeline.run env p ts ofn ns sdur).trace.map rank) ∧
    List.Chain' (· < ·)
      (((VideoPipeline.run env p ts ofn ns sdur).trace.filter isProgressAct).map rank) := by
  have hf := run_facts env p ts ofn ns sdur
  simp only [runGoodB, Bool.and_eq_true] at hf
  exact ⟨(chainLeB_iff _).mp hf.1.2, (chainLtB_iff _).mp hf.2⟩

/-- **C5** counterexample: two failing runs refuting the claim as stated.
In the first, every stage succeeded and only the metadata write raised:
`success == false` yet the stage map is the full six-key sequence, not a
strict prefix. In the second, the script stage raised an exception with
an empty message: the `error` field is the empty string, not a non-empty
one. -/
theorem C5_counterexample :
    ((VideoPipeline.run envSaveFail "p" "ts" none none none).result.success = false ∧
     (VideoPipeline.run envSaveFail "p" "ts" none none none).result.project_data.steps.map
       Prod.fst = ["script", "scenes", "storyboard", "clips", "audio", "final_video"]) ∧
    ((VideoPipeline.run envEmptyMsg "p" "ts" none none none).result.success = false ∧
     (VideoPipeline.run envEmptyMsg "p" "ts" none none none).result.error = some "") := by
  exact ⟨⟨by decide, by decide⟩, ⟨by decide, by decide⟩⟩

/-- **C5** as amended: every run returning `success == false` carries an
`error` field (the exception's message, which may be empty), and the stage
map's keys are a prefix — not necessarily strict — of the executed stage
sequence: the full sequence occurs exactly when the failure struck after
final assembly (in metadata persistence or the last notification). -/
theorem C5_amended (env : Env) (p ts : String) (ofn : Option String)
    (ns sdur : Option Nat)
    (h : (VideoPipeline.run env p ts ofn ns sdur).result.success = false) :
    (VideoPipeline.run env p ts ofn ns sdur).result.error.isSome = true ∧
    List.isPrefixOf
      ((VideoPipeline.run env p ts ofn ns sdur).result.project_data.steps.map Prod.fst)
      (fullKeys env.use_storyboard) = true := by
  have hf := run_facts env p ts ofn ns sdur
  simp only [runGoodB, Bool.and_eq_true, Bool.or_eq_true] at hf
  rcases hf with ⟨⟨⟨⟨_, h2⟩, _⟩, _⟩, _⟩
  rcases h2 with h2 | h2
  · rw [h] at h2
    exact absurd h2 (by simp)
  · exact h2

/-- Witness for the amended C5: the run where only the metadata write
raised. -/
theorem C5_amended_witness :
    (VideoPipeline.run envSaveFail "p" "ts" none none none).result.error.isSome = true ∧
    List.isPrefixOf
      ((VideoPipeline.run envSaveFail "p" "ts" none none none).result.project_data.steps.map
        Prod.fst) (fullKeys envSaveFail.use_storyboard) = true :=
  C5_amended envSaveFail "p" "ts" none none none (by decide)

/-- **C1** counterexample: when the script stage raises, the run fails and
the trace contains no metadata-save attempt at all — no metadata record
reflecting the empty-stages state is written, contrary to the claim. -/
theorem C1_counterexample :
    (VideoPipeline.run envScriptFail "p" "ts" none none none).result.success = false ∧
    (VideoPipeline.run envScriptFail "p" "ts" none none none).result.project_data.steps = [] ∧
    (VideoPipeline.run envScriptFail "p" "ts" none none none).trace.filterMap metaProjOf
      = [] := by
  exact ⟨by decide, by decide, by decide⟩

/-- **C1** as amended: metadata persistence is attempted only on the
success path, after final assembly: every metadata snapshot a run attempts
to write carries the full stage-key map; on a stage failure no metadata
record is attempted (in particular none reflecting a partial or empty
stage map). -/
theorem C1_amended (env : Env) (p ts : String) (ofn : Option String)
    (ns sdur : Option Nat) (pr : Project)
    (h : pr ∈ (VideoPipeline.run env p ts ofn ns sdur).trace.filterMap metaProjOf) :
    pr.steps.map Prod.fst = fullKeys env.use_storyboard := by
  have hf := run_facts env p ts ofn ns sdur
  simp only [runGoodB, Bool.and_eq_true, List.all_eq_true, beq_iff_eq] at hf
  exact hf.1.1.2 pr h

/-- Witness for the amended C1: the metadata snapshot attempted by the
all-success example run has the full stage-key map. -/
theorem C1_amended_witness :
    (mkProject "p" "ts" (VideoPipeline.run envOk "p" "ts" none none none).trace).steps.map
      Prod.fst = fullKeys envOk.use_storyboard :=
  C1_amended envOk "p" "ts" none none none
    (mkProject "p" "ts" (VideoPipeline.run envOk "p" "ts" none none none).trace)
    (by decide)

/-- **C2** counterexample: a run in which all six stage transforms
succeeded but the metadata write raised. The primary outcome is changed:
`run` returns `success == false` with the persistence error as the run's
error, even though the full six-stage map was accumulated. -/
theorem C2_counterexample :
    (VideoPipeline.run envSaveFail "p" "ts" none none none).result.success = false ∧
    (VideoPipeline.run envSaveFail "p" "ts" none none none).result.error =
      some "disk full" ∧
    (VideoPipeline.run envSaveFail "p" "ts" none none none).result.video_path = none := by
  exact ⟨by decide, by decide, by decide⟩

/-- **C2** as amended: because `_save_metadata()` is called inside the
`try` block, a metadata-persistence failure after all six stages succeed
is caught by the same handler as a stage failure and does override the
pipeline's own outcome: `run` returns `success == false` with the
persistence error. -/
theorem C2_amended (env : Env) (p ts : String) (ofn : Option String)
    (ns sdur : Option Nat) (sd : ScriptData) (pl : ScenePlan)
    (imgs cps : List String) (ap fv m : String)
    (hcb : ∀ i t st dt, cbRes env i t st dt = Except.ok ())
    (husb : env.use_storyboard = true)
    (h1 : env.scriptGen p = .ok sd)
    (h2 : env.scenePlanner sd ns sdur = .ok pl)
    (h3 : env.storyboardGen pl = .ok imgs)
    (h4 : env.videoGen pl (some imgs) = .ok cps)
    (h5 : env.audioGen sd = .ok ap)
    (h6 : ∀ path, env.assembler cps ap path = .ok fv)
    (hms : ∀ pr, env.saveMetadata pr = .error m) :
    (VideoPipeline.run env p ts ofn ns sdur).result.success = false ∧
    (VideoPipeline.run env p ts ofn ns sdur).result.error = some m := by
  unfold VideoPipeline.run
  simp only [stagesFrom4, hcb, husb, h1, h2, h3, h4, h5, h6, hms, failOutcome]
  exact ⟨trivial, trivial⟩

/-- Witness for the amended C2: the concrete run behind the
counterexample. -/
theorem C2_amended_witness :
    (VideoPipeline.run envSaveFail "p" "ts" none none none).result.success = false ∧
    (VideoPipeline.run envSaveFail "p" "ts" none none none).result.error =
      some "disk full" :=
  C2_amended envSaveFail "p" "ts" none none none sd0 plan0 ["sb1.png"] ["clip1.mp4"]
    "output/audio.mp3" "output/final.mp4" "disk full"
    (fun _ _ _ _ => rfl) rfl rfl rfl rfl rfl rfl (fun _ => rfl) (fun _ => rfl)

/-- **C3** counterexample: two runs over identical stage transforms, one
with a normally-returning callback and one with a raising callback. The
raising callback aborts the pipeline: no stage transform is invoked, the
stage map stays empty, and the run fails — the outcome is not the same as
with the normally-returning callback. -/
theorem C3_counterexample :
    ((VideoPipeline.run envOk "p" "ts" none none none).result.success = true ∧
     invokedStages (VideoPipeline.run envOk "p" "ts" none none none).trace =
       ["script_generator", "scene_planner", "storyboard_generator",
        "video_generator", "audio_generator"]) ∧
    ((VideoPipeline.run envCbBoom "p" "ts" none none none).result.success = false ∧
     (VideoPipeline.run envCbBoom "p" "ts" none none none).result.project_data.steps = [] ∧
     invokedStages (VideoPipeline.run envCbBoom "p" "ts" none none none).trace = []) := by
  exact ⟨⟨by decide, by decide⟩, by decide, by decide⟩

/-- **C3** as amended: the callback is invoked unguarded, so an exception
it raises propagates to the top-level handler exactly like a stage
failure: when the first notification raises, the run returns
`success == false` with the callback's message, no stage transform is
invoked and the stage map stays empty. -/
theorem C3_amended (env : Env) (p ts : String) (ofn : Option String)
    (ns sdur : Option Nat) (f : Nat → Nat → String → String → Except String Unit)
    (m : String)
    (hcb : env.progressCallback = some f)
    (hf : f 1 6 "📝 Generating script..." "Creating narrative structure" = .error m) :
    (VideoPipeline.run env p ts ofn ns sdur).result.success = false ∧
    (VideoPipeline.run env p ts ofn ns sdur).result.error = some m ∧
    (VideoPipeline.run env p ts ofn ns sdur).result.project_data.steps = [] ∧
    invokedStages (VideoPipeline.run env p ts ofn ns sdur).trace = [] := by
  unfold VideoPipeline.run
  simp only [cbRes, cbTrace, hcb, hf, failOutcome]
  refine ⟨trivial, trivial, by simp [mkProject, stepsOf], by simp [invokedStages]⟩

/-- Witness for the amended C3: the raising-callback example run. -/
theorem C3_amended_witness :
    (VideoPipeline.run envCbBoom "p" "ts" none none none).result.success = false ∧
    (VideoPipeline.run envCbBoom "p" "ts" none none none).result.error = some "boom" ∧
    (VideoPipeline.run envCbBoom "p" "ts" none none none).result.project_data.steps = [] ∧
    invokedStages (VideoPipeline.run envCbBoom "p" "ts" none none none).trace = [] :=
  C3_amended envCbBoom "p" "ts" none none none (fun _ _ _ _ => .error "boom") "boom"
    rfl rfl

/-- **C10** counterexample: the caller supplies `output_filename = ""`.
Because line 151 tests `if not output_filename:` and the empty string is
falsy in Python, the supplied name is not used as given: the full
sanitization pipeline runs instead, and the assembler receives the derived
`My_Video_ts.mp4` path (title filtered, spaces collapsed, timestamp and
extension appended). -/
theorem C10_counterexample :
    (VideoPipeline.run envTitleBang "p" "ts" (some "") none none).result.video_path =
      some "output/My_Video_ts.mp4" ∧
    Action.invokeAssemble "output/My_Video_ts.mp4" ∈
      (VideoPipeline.run envTitleBang "p" "ts" (some "") none none).trace := by
  exact ⟨by decide, by decide⟩

/-- **C10** as amended: a supplied non-empty filename is used exactly as
given — joined to the output directory with no filtering, no
space-replacement, no truncation and no appended timestamp or extension;
a supplied empty string is falsy under the `if not output_filename:` test
and is treated as absent, triggering the derivation. -/
theorem C10_amended (env : Env) (p ts : String) (ns sdur : Option Nat)
    (sd : ScriptData) (pl : ScenePlan) (imgs cps : List String) (ap fv nm : String)
    (hcb : env.progressCallback = none)
    (husb : env.use_storyboard = true)
    (h1 : env.scriptGen p = .ok sd)
    (h2 : env.scenePlanner sd ns sdur = .ok pl)
    (h3 : env.storyboardGen pl = .ok imgs)
    (h4 : env.videoGen pl (some imgs) = .ok cps)
    (h5 : env.audioGen sd = .ok ap)
    (h6 : ∀ path, env.assembler cps ap path = .ok fv)
    (hms : ∀ pr, env.saveMetadata pr = .ok ())
    (hnm : nm ≠ "") :
    Action.invokeAssemble (env.outputDir ++ "/" ++ nm) ∈
      (VideoPipeline.run env p ts (some nm) ns sdur).trace := by
  unfold VideoPipeline.run
  simp only [stagesFrom4, cbRes, cbTrace, hcb, husb, h1, h2, h3, h4, h5, h6, hms]
  simp [pyFalsyStr, hnm]

/-- Witness for the amended C10: a custom filename passed through
unchanged. -/
theorem C10_amended_witness :
    Action.invokeAssemble (envCustomName.outputDir ++ "/" ++ "custom.webm") ∈
      (VideoPipeline.run envCustomName "p" "ts" (some "custom.webm") none none).trace :=
  C10_amended envCustomName "p" "ts" none none
    { title := "My Video!", script := "s" } plan0 ["sb1.png"] ["clip1.mp4"]
    "output/audio.mp3" "output/final.mp4" "custom.webm"
    rfl rfl rfl rfl rfl rfl rfl (fun _ => rfl) (fun _ => rfl) (by decide)

/-- The output-filename derivation as the specification words it: keep
only alphanumeric characters, spaces, hyphens and underscores, with each
space replaced by an underscore (one filtering-and-replacing pass),
truncate to 50 characters, then append an underscore, the run's timestamp
and the fixed `.mp4` extension. -/
def specFilename (title timestamp : String) : String :=
  String.mk ((title.data.filterMap fun c =>
      if c.isAlphanum || c = '-' || c = '_' then some c
      else if c = ' ' then some '_' else none).take 50)
    ++ "_" ++ timestamp ++ ".mp4"

/-- The code's filter-then-replace pass equals the specification's single
filtering-and-replacing pass. -/
theorem filter_map_eq_filterMap (l : List Char) :
    (l.filter fun c => c.isAlphanum || c = ' ' || c = '-' || c = '_').map
        (fun c => if c = ' ' then '_' else c) =
      l.filterMap fun c =>
        if c.isAlphanum || c = '-' || c = '_' then some c
        else if c = ' ' then some '_' else none := by
  induction l with
  | nil => rfl
  | cons c cs ih =>
    by_cases hS : c = ' '
    · subst hS
      simp [List.filter_cons, List.filterMap_cons, ih,
        show (' ' : Char).isAlphanum = false from rfl,
        show (' ' : Char) ≠ '-' by decide, show (' ' : Char) ≠ '_' by decide]
    · cases hA : c.isAlphanum <;> by_cases hH : c = '-' <;> by_cases hU : c = '_' <;>
        simp_all [List.filter_cons, List.filterMap_cons]

/-- **C6** (confirmed): for every script title and timestamp the pipeline's
derived output filename — computed by `derivedFilename`, the pure function
of title and timestamp that `VideoPipeline.run` applies when no filename
is supplied — equals the specification's description: characters outside
the allowed set stripped, spaces replaced by underscores, truncation to 50
characters, then underscore, timestamp and the `.mp4` extension. Being a
pure function of `(title, timestamp)`, the derivation is identical across
repeated calls. -/
theorem C6_filename_derivation (title timestamp : String) :
    derivedFilename title timestamp = specFilename title timestamp := by
  unfold derivedFilename specFilename sanitizeTitle
  rw [filter_map_eq_filterMap]

/-- **C7**: behaviour of `ScriptGenerator.generate` on the two
structurally-invalid upstream responses. A malformed JSON response fails
with `ValueError` (the ContentError of the spec's taxonomy), as claimed;
but a missing required field fails with `RuntimeError`, because the
`ValueError("Invalid script structure returned")` raised at line 62 inside
the `try` is re-caught by the generic `except Exception` handler and
re-wrapped. -/
theorem C7_error_class :
    ScriptGenerator.generate (Upstream.jsonBad "Expecting value: line 1 column 1 (char 0)") =
      .error (.valueError
        "Failed to parse script response: Expecting value: line 1 column 1 (char 0)") ∧
    ScriptGenerator.generate (Upstream.jsonObj [("title", "How Rainbows Form")]) =
      .error (.runtimeError "Script generation failed: Invalid script structure returned") := by
  exact ⟨rfl, rfl⟩

/-- **C8** counterexample: a parsed upstream object whose `title` and
`script` values are both empty passes the structure validation, so
generation succeeds with empty fields; and the orchestrator, given a
script stage returning empty title and script, still invokes the dependent
scene-planning stage. -/
theorem C8_counterexample :
    ScriptGenerator.generate (Upstream.jsonObj [("title", ""), ("script", "")]) =
      .ok [("title", ""), ("script", "")] ∧
    "scene_planner" ∈
      invokedStages (VideoPipeline.run envEmptyTitle "p" "ts" none none none).trace := by
  exact ⟨rfl, by decide⟩

/-- **C8** as amended: successful generation guarantees only that the
`title` and `script` keys are present in the returned structure — their
values may be empty, emptiness is not validated, and the orchestrator
invokes dependent stages regardless. -/
theorem C8_amended (u : Upstream) (fields : List (String × String))
    (h : ScriptGenerator.generate u = .ok fields) :
    (fields.lookup "title").isSome = true ∧ (fields.lookup "script").isSome = true := by
  cases u with
  | raiseOther m => exact absurd h (by simp [ScriptGenerator.generate])
  | jsonBad m => exact absurd h (by simp [ScriptGenerator.generate])
  | jsonObj fs =>
    simp only [ScriptGenerator.generate] at h
    split at h
    · exact absurd h (by simp)
    · next hcond =>
      obtain rfl : fs = fields := by injection h
      cases ho1 : List.lookup "title" fs <;> cases ho2 : List.lookup "script" fs <;>
        simp_all

/-- Witness for the amended C8: a well-formed two-field response. -/
theorem C8_amended_witness :
    ((([("title", "T"), ("script", "S")] : List (String × String)).lookup "title").isSome
      = true) ∧
    ((([("title", "T"), ("script", "S")] : List (String × String)).lookup "script").isSome
      = true) :=
  C8_amended (Upstream.jsonObj [("title", "T"), ("script", "S")])
    [("title", "T"), ("script", "S")] rfl

end GeoTour
